import Mathlib

/-!
# LSS (LoRa Sensor Station) — verification of the packet codec,
# mesh router, and command applier

Shallow embedding of the firmware in `LSS-Arduino/src` (`packets.cpp`,
`mesh.cpp`, `command_handler.cpp`, `node_config.cpp` defaults) over `Nat`.

Modelling conventions:
* Bytes are `Nat` (values `< 256` in well-formed data); buffers are `List Nat`.
* Machine integers are `Nat` with explicit `% 2^w` where C truncates.
* `float` fields are carried as their raw IEEE-754 bit patterns (`Nat`,
  `< 2^32`); the codec only ever `memcpy`s them, so their bits are the
  whole story at the wire level.
* Fallible C functions returning `0` / `false` become `Option`.
* `millis()` is passed explicitly as a `Nat` argument (`now`).
-/

set_option maxRecDepth 100000

namespace LSS

-- ============================================================
-- Byte-level utilities (little-endian, as memcpy of packed structs)
-- ============================================================

/-- Little-endian encoding of a `uint16_t`. -/
def u16le (v : Nat) : List Nat := [v % 256, v / 256 % 256]

/-- Little-endian encoding of a `uint32_t` (also used for raw float bits). -/
def u32le (v : Nat) : List Nat :=
  [v % 256, v / 256 % 256, v / 65536 % 256, v / 16777216 % 256]

/-- Read one byte at offset `i` (out-of-range reads default to 0). -/
def rd8 (b : List Nat) (i : Nat) : Nat := b.getD i 0

/-- Read a little-endian `uint16_t` at offset `i`. -/
def rd16 (b : List Nat) (i : Nat) : Nat := rd8 b i + 256 * rd8 b (i + 1)

/-- Read a little-endian `uint32_t` at offset `i`. -/
def rd32 (b : List Nat) (i : Nat) : Nat :=
  rd8 b i + 256 * rd8 b (i + 1) + 65536 * rd8 b (i + 2)
    + 16777216 * rd8 b (i + 3)

/-- `uint32_t` subtraction `a - b` (wraparound semantics of the C code's
unsigned "elapsed since" arithmetic). -/
def sub32 (a b : Nat) : Nat :=
  (a + (4294967296 - b % 4294967296)) % 4294967296

-- ============================================================
-- CRC-16/CCITT-FALSE  (packets.cpp, lss_crc16)
-- ============================================================

/-- One shift round of the CRC inner loop:
`crc = (crc & 0x8000) ? (crc << 1) ^ 0x1021 : crc << 1` on `uint16_t`. -/
def crcRound (c : Nat) : Nat :=
  if c &&& 0x8000 ≠ 0 then ((c * 2) ^^^ 0x1021) % 65536 else (c * 2) % 65536

/-- Iterate `crcRound` `n` times (the `for (b = 0; b < 8; b++)` loop). -/
def crcRounds : Nat → Nat → Nat
  | c, 0 => c
  | c, n + 1 => crcRounds (crcRound c) n

/-- Absorb one input byte: `crc ^= data[i] << 8` then 8 shift rounds. -/
def crcStep (c b : Nat) : Nat := crcRounds (c ^^^ b % 256 * 256) 8

/-- `lss_crc16`: CRC-16/CCITT-FALSE, init `0xFFFF`, poly `0x1021`,
no reflection, no final XOR. -/
def lss_crc16 (data : List Nat) : Nat := data.foldl crcStep 0xFFFF

theorem crcRound_lt (c : Nat) : crcRound c < 65536 := by
  unfold crcRound
  split <;> exact Nat.mod_lt _ (by norm_num)

theorem crcRounds_lt (n : Nat) (c : Nat) (h : 0 < n) : crcRounds c n < 65536 := by
  induction n generalizing c with
  | zero => omega
  | succ n ih =>
    cases n with
    | zero => exact crcRound_lt c
    | succ m => exact ih (crcRound c) (Nat.succ_pos m)

theorem crcStep_lt (c b : Nat) : crcStep c b < 65536 :=
  crcRounds_lt 8 _ (by norm_num)

theorem foldl_crcStep_lt (data : List Nat) (c : Nat) (h : c < 65536) :
    data.foldl crcStep c < 65536 := by
  induction data generalizing c with
  | nil => simpa using h
  | cons x xs ih => exact ih (crcStep c x) (crcStep_lt c x)

theorem lss_crc16_lt (data : List Nat) : lss_crc16 data < 65536 :=
  foldl_crcStep_lt data 0xFFFF (by norm_num)

/-- **C7.** `lss_crc16` of the empty input is `0xFFFF`, and of the nine
ASCII bytes of "123456789" is `0x29B1` (the CRC-16/CCITT-FALSE check
vector). -/
theorem crc16_empty_and_check_vector :
    lss_crc16 [] = 0xFFFF ∧
    lss_crc16 [0x31, 0x32, 0x33, 0x34, 0x35, 0x36, 0x37, 0x38, 0x39] = 0x29B1 := by
  constructor
  · rfl
  · decide

-- ============================================================
-- Small list-access helper lemmas
-- ============================================================

theorem getD_take (l : List Nat) (n i : Nat) (h : i < n) :
    (l.take n).getD i 0 = l.getD i 0 := by
  simp [List.getD, List.getElem?_take_of_lt h]

theorem rd8_take (l : List Nat) (n i : Nat) (h : i < n) :
    rd8 (l.take n) i = rd8 l i := getD_take l n i h

theorem rd16_take (l : List Nat) (n i : Nat) (h : i + 1 < n) :
    rd16 (l.take n) i = rd16 l i := by
  unfold rd16
  rw [rd8_take l n i (by omega), rd8_take l n (i + 1) h]

/-- Reading a little-endian `uint16_t` back from where it was appended. -/
theorem rd16_append (l : List Nat) (v : Nat) (r : List Nat) (hv : v < 65536) :
    rd16 (l ++ (u16le v ++ r)) l.length = v := by
  unfold rd16 rd8 u16le
  rw [List.getD_append_right l _ 0 l.length (Nat.le_refl _),
      List.getD_append_right l _ 0 (l.length + 1) (by omega)]
  simp only [Nat.sub_self, Nat.add_sub_cancel_left]
  simp only [List.cons_append, List.getD_cons_zero, List.getD_cons_succ]
  omega

-- ============================================================
-- Multi-sensor telemetry packet  (packets.h / packets.cpp)
-- ============================================================

/-- `MultiSensorHeader` (packed, 60 bytes on the wire). -/
structure MultiSensorHeader where
  syncWord : Nat        -- uint16, SYNC_MULTI_SENSOR = 0xABCD
  networkId : Nat       -- uint16
  packetType : Nat      -- uint8
  sensorId : Nat        -- uint8
  valueCount : Nat      -- uint8
  batteryPercent : Nat  -- uint8
  powerState : Nat      -- uint8
  lastCommandSeq : Nat  -- uint8
  ackStatus : Nat       -- uint8
  pad : Nat             -- uint8 `_pad`
  location : List Nat   -- char[32]
  zone : List Nat       -- char[16]
  deriving DecidableEq

/-- `SensorValuePacket` (packed, 5 bytes: 1 type tag + 4 raw float bytes). -/
structure SensorValuePacket where
  vtype : Nat  -- uint8 `type`
  value : Nat  -- the float's raw IEEE-754 bit pattern (uint32)
  deriving DecidableEq

/-- In-memory `MultiSensorPacket` struct: header, `values[16]`, checksum. -/
structure MultiSensorPacket where
  header : MultiSensorHeader
  values : List SensorValuePacket
  checksum : Nat
  deriving DecidableEq

def MAX_SENSOR_VALUES : Nat := 16
def SYNC_MULTI_SENSOR : Nat := 0xABCD
def SYNC_COMMAND : Nat := 0xCDEF

/-- Byte image of a `MultiSensorHeader` (the `memcpy` of the packed struct). -/
def encodeMultiSensorHeader (h : MultiSensorHeader) : List Nat :=
  u16le h.syncWord ++ u16le h.networkId ++
  [h.packetType, h.sensorId, h.valueCount, h.batteryPercent,
   h.powerState, h.lastCommandSeq, h.ackStatus, h.pad] ++
  h.location ++ h.zone

/-- Decoding a `MultiSensorHeader` from bytes (the receiving `memcpy`). -/
def decodeMultiSensorHeader (b : List Nat) : MultiSensorHeader :=
  { syncWord := rd16 b 0, networkId := rd16 b 2,
    packetType := rd8 b 4, sensorId := rd8 b 5, valueCount := rd8 b 6,
    batteryPercent := rd8 b 7, powerState := rd8 b 8,
    lastCommandSeq := rd8 b 9, ackStatus := rd8 b 10, pad := rd8 b 11,
    location := (b.drop 12).take 32, zone := (b.drop 44).take 16 }

/-- Field ranges of the packed C struct. -/
def MultiSensorHeader.Wf (h : MultiSensorHeader) : Prop :=
  h.syncWord < 65536 ∧ h.networkId < 65536 ∧ h.packetType < 256 ∧
  h.sensorId < 256 ∧ h.valueCount < 256 ∧ h.batteryPercent < 256 ∧
  h.powerState < 256 ∧ h.lastCommandSeq < 256 ∧ h.ackStatus < 256 ∧
  h.pad < 256 ∧ h.location.length = 32 ∧ (∀ x ∈ h.location, x < 256) ∧
  h.zone.length = 16 ∧ (∀ x ∈ h.zone, x < 256)

instance (h : MultiSensorHeader) : Decidable h.Wf := by
  unfold MultiSensorHeader.Wf; infer_instance

theorem encodeMultiSensorHeader_length (h : MultiSensorHeader) (hw : h.Wf) :
    (encodeMultiSensorHeader h).length = 60 := by
  obtain ⟨-, -, -, -, -, -, -, -, -, -, hloc, -, hzone, -⟩ := hw
  simp [encodeMultiSensorHeader, u16le, hloc, hzone]

theorem decode_encode_header (h : MultiSensorHeader) (hw : h.Wf) (rest : List Nat) :
    decodeMultiSensorHeader (encodeMultiSensorHeader h ++ rest) = h := by
  obtain ⟨h1, h2, h3, h4, h5, h6, h7, h8, h9, h10, hloc, -, hzone, -⟩ := hw
  have hshape : encodeMultiSensorHeader h ++ rest =
      h.syncWord % 256 :: h.syncWord / 256 % 256 ::
      h.networkId % 256 :: h.networkId / 256 % 256 ::
      h.packetType :: h.sensorId :: h.valueCount :: h.batteryPercent ::
      h.powerState :: h.lastCommandSeq :: h.ackStatus :: h.pad ::
      (h.location ++ (h.zone ++ rest)) := by
    simp [encodeMultiSensorHeader, u16le]
  rw [hshape]
  unfold decodeMultiSensorHeader
  cases h with
  | mk sw ni pt sid vc bp ps lcs as pd loc zn =>
    simp only [MultiSensorHeader.mk.injEq] at *
    refine ⟨?_, ?_, ?_, ?_, ?_, ?_, ?_, ?_, ?_, ?_, ?_, ?_⟩
    · simp only [rd16, rd8, List.getD_cons_zero, List.getD_cons_succ]; omega
    · simp only [rd16, rd8, List.getD_cons_zero, List.getD_cons_succ]; omega
    · rfl
    · rfl
    · rfl
    · rfl
    · rfl
    · rfl
    · rfl
    · rfl
    · show ((loc ++ (zn ++ rest)).take 32) = loc
      rw [← hloc, List.take_left]
    · show (((loc ++ (zn ++ rest)).drop 32).take 16) = zn
      rw [← hloc, List.drop_left, ← hzone, List.take_left]

/-- Byte image of one `SensorValuePacket`. -/
def encodeSensorValue (v : SensorValuePacket) : List Nat := v.vtype :: u32le v.value

/-- Byte image of a run of `SensorValuePacket`s. -/
def encodeSensorValues : List SensorValuePacket → List Nat
  | [] => []
  | v :: vs => encodeSensorValue v ++ encodeSensorValues vs

/-- Decode `n` consecutive `SensorValuePacket`s. -/
def decodeSensorValues : Nat → List Nat → List SensorValuePacket
  | 0, _ => []
  | n + 1, b => ⟨rd8 b 0, rd32 b 1⟩ :: decodeSensorValues n (b.drop 5)

def SensorValuePacket.Wf (v : SensorValuePacket) : Prop :=
  v.vtype < 256 ∧ v.value < 4294967296

instance (v : SensorValuePacket) : Decidable v.Wf := by
  unfold SensorValuePacket.Wf; infer_instance

theorem encodeSensorValues_length (vs : List SensorValuePacket) :
    (encodeSensorValues vs).length = 5 * vs.length := by
  induction vs with
  | nil => rfl
  | cons v vs ih => simp [encodeSensorValues, encodeSensorValue, u32le, ih]; omega

theorem decode_encode_values (vs : List SensorValuePacket)
    (hw : ∀ v ∈ vs, v.Wf) (rest : List Nat) :
    decodeSensorValues vs.length (encodeSensorValues vs ++ rest) = vs := by
  induction vs with
  | nil => rfl
  | cons v vs ih =>
    obtain ⟨hvt, hvv⟩ := hw v (List.mem_cons_self v vs)
    have hshape : encodeSensorValues (v :: vs) ++ rest =
        v.vtype :: v.value % 256 :: v.value / 256 % 256 ::
        v.value / 65536 % 256 :: v.value / 16777216 % 256 ::
        (encodeSensorValues vs ++ rest) := by
      simp [encodeSensorValues, encodeSensorValue, u32le]
    rw [List.length_cons, hshape]
    unfold decodeSensorValues
    refine congrArg₂ _ ?_ ?_
    · have h1 : rd8 (v.vtype :: v.value % 256 :: v.value / 256 % 256 ::
          v.value / 65536 % 256 :: v.value / 16777216 % 256 ::
          (encodeSensorValues vs ++ rest)) 0 = v.vtype := rfl
      have h2 : rd32 (v.vtype :: v.value % 256 :: v.value / 256 % 256 ::
          v.value / 65536 % 256 :: v.value / 16777216 % 256 ::
          (encodeSensorValues vs ++ rest)) 1 = v.value := by
        simp only [rd32, rd8, List.getD_cons_succ, List.getD_cons_zero]
        omega
      rw [h1, h2]
    · have hdrop : (v.vtype :: v.value % 256 :: v.value / 256 % 256 ::
          v.value / 65536 % 256 :: v.value / 16777216 % 256 ::
          (encodeSensorValues vs ++ rest)).drop 5 = encodeSensorValues vs ++ rest := rfl
      rw [hdrop, ih (fun w hwmem => hw w (List.mem_cons_of_mem v hwmem))]

-- ============================================================
-- Multi-sensor codec  (packets.cpp lines 32–89)
-- ============================================================

/-- `lss_multi_sensor_size`: header + valueCount·5 + 2 CRC bytes. -/
def lss_multi_sensor_size (p : MultiSensorPacket) : Nat :=
  60 + p.header.valueCount * 5 + 2

/-- Header + value-entry bytes as written by the serialiser (the span the
CRC is computed over).  The C `memcpy` reads `valueCount` entries from the
in-memory `values[16]` array; for `valueCount > 16` that read runs past
the array (undefined behaviour), modelled here by `take` stopping at the
entries that exist. -/
def multiSensorBody (p : MultiSensorPacket) : List Nat :=
  encodeMultiSensorHeader p.header ++
  encodeSensorValues (p.values.take p.header.valueCount)

/-- `lss_serialize_multi_sensor`: `none` ≙ the C function returns 0 and
writes nothing; `some bytes` ≙ it writes `bytes` and returns their count.
The only failure check in the source is the buffer-size comparison. -/
def lss_serialize_multi_sensor (p : MultiSensorPacket) (buf_len : Nat) :
    Option (List Nat) :=
  if buf_len < lss_multi_sensor_size p then none
  else some (multiSensorBody p ++ u16le (lss_crc16 (multiSensorBody p)))

/-- `lss_deserialize_multi_sensor`: `none` ≙ the C function returns false
(no accepted packet). -/
def lss_deserialize_multi_sensor (buf : List Nat) : Option MultiSensorPacket :=
  if buf.length < 62 then none
  else
    let hdr := decodeMultiSensorHeader (buf.take 60)
    if hdr.syncWord ≠ SYNC_MULTI_SENSOR then none
    else if hdr.valueCount > MAX_SENSOR_VALUES then none
    else
      let payload_end := 60 + hdr.valueCount * 5
      if buf.length < payload_end + 2 then none
      else
        let received := rd16 buf payload_end
        if lss_crc16 (buf.take payload_end) ≠ received then none
        else some { header := hdr,
                    values := decodeSensorValues hdr.valueCount (buf.drop 60),
                    checksum := received }

def MultiSensorPacket.Wf (p : MultiSensorPacket) : Prop :=
  p.header.Wf ∧ p.values.length = 16 ∧ (∀ v ∈ p.values, v.Wf) ∧
  p.checksum < 65536

instance (p : MultiSensorPacket) : Decidable p.Wf := by
  unfold MultiSensorPacket.Wf; infer_instance

theorem multiSensorBody_length (p : MultiSensorPacket) (hw : p.Wf)
    (hvc : p.header.valueCount ≤ 16) :
    (multiSensorBody p).length = 60 + p.header.valueCount * 5 := by
  obtain ⟨hh, hlen, -, -⟩ := hw
  rw [multiSensorBody, List.length_append,
      encodeMultiSensorHeader_length p.header hh, encodeSensorValues_length,
      List.length_take, hlen]
  omega

/-- Round-trip for the multi-sensor codec (helper used by the C2 theorem). -/
theorem ms_roundtrip_aux (p : MultiSensorPacket) (bl : Nat) (hw : p.Wf)
    (hsync : p.header.syncWord = SYNC_MULTI_SENSOR)
    (hvc : p.header.valueCount ≤ 16)
    (hbl : lss_multi_sensor_size p ≤ bl) :
    ∃ B, lss_serialize_multi_sensor p bl = some B ∧
      lss_crc16 (B.take (60 + p.header.valueCount * 5)) =
        rd16 B (60 + p.header.valueCount * 5) ∧
      lss_deserialize_multi_sensor B =
        some { header := p.header,
               values := p.values.take p.header.valueCount,
               checksum := lss_crc16 (multiSensorBody p) } := by
  obtain ⟨hh, hvlen, hvwf, hck⟩ := hw
  have hbl2 : 60 + p.header.valueCount * 5 + 2 ≤ bl := by
    simpa [lss_multi_sensor_size] using hbl
  set crc := lss_crc16 (multiSensorBody p) with hcrc_def
  set B := multiSensorBody p ++ u16le crc with hB_def
  have hbody_len : (multiSensorBody p).length = 60 + p.header.valueCount * 5 :=
    multiSensorBody_length p ⟨hh, hvlen, hvwf, hck⟩ hvc
  have hBlen : B.length = 60 + p.header.valueCount * 5 + 2 := by
    rw [hB_def, List.length_append, hbody_len]; rfl
  have htake_body : B.take (60 + p.header.valueCount * 5) = multiSensorBody p := by
    rw [hB_def, ← hbody_len, List.take_left]
  have hcrc_lt : crc < 65536 := lss_crc16_lt _
  have hrd : rd16 B (60 + p.header.valueCount * 5) = crc := by
    have := rd16_append (multiSensorBody p) crc [] hcrc_lt
    rw [List.append_nil] at this
    rw [hB_def, ← hbody_len]
    exact this
  have hhdr_len : (encodeMultiSensorHeader p.header).length = 60 :=
    encodeMultiSensorHeader_length p.header hh
  have htake60 : B.take 60 = encodeMultiSensorHeader p.header := by
    rw [hB_def, multiSensorBody, List.append_assoc, ← hhdr_len, List.take_left]
  have hdec : decodeMultiSensorHeader (B.take 60) = p.header := by
    rw [htake60]
    have := decode_encode_header p.header hh []
    rwa [List.append_nil] at this
  have hdrop60 : B.drop 60 =
      encodeSensorValues (p.values.take p.header.valueCount) ++ u16le crc := by
    rw [hB_def, multiSensorBody, List.append_assoc, ← hhdr_len, List.drop_left]
  have htklen : (p.values.take p.header.valueCount).length = p.header.valueCount := by
    rw [List.length_take, hvlen]; omega
  have hvals : decodeSensorValues p.header.valueCount (B.drop 60) =
      p.values.take p.header.valueCount := by
    have h := decode_encode_values (p.values.take p.header.valueCount)
      (fun v hv => hvwf v (List.take_subset _ _ hv)) (u16le crc)
    rw [htklen] at h
    rw [hdrop60]
    exact h
  refine ⟨B, ?_, ?_, ?_⟩
  · unfold lss_serialize_multi_sensor lss_multi_sensor_size
    rw [if_neg (by omega)]
  · rw [htake_body, hrd]
  · unfold lss_deserialize_multi_sensor
    rw [if_neg (by omega)]
    simp only [hdec, hsync, SYNC_MULTI_SENSOR, MAX_SENSOR_VALUES]
    rw [if_neg (by omega), if_neg (by omega), if_neg (by omega),
        htake_body, hrd, if_neg (by omega), hvals]

-- ============================================================
-- C1: serialiser failure conditions
-- ============================================================

/-- A concrete in-memory packet whose `valueCount` field (17) exceeds
`MAX_SENSOR_VALUES`; its `values[16]` array is fully populated. -/
def oversizedCountPkt : MultiSensorPacket :=
  { header := { syncWord := 0xABCD, networkId := 1, packetType := 1,
                sensorId := 5, valueCount := 17, batteryPercent := 85,
                powerState := 0, lastCommandSeq := 0, ackStatus := 0, pad := 0,
                location := List.replicate 32 0, zone := List.replicate 16 0 },
    values := List.replicate 16 ⟨0, 0⟩,
    checksum := 0 }

/-- **C1 counterexample.** The claim says `lss_serialize_multi_sensor`
fails whenever `valueCount > 16`, including for large-enough buffers.  On
this packet with `valueCount = 17` and a 255-byte buffer
(255 ≥ 60 + 17·5 + 2 = 147) the serialiser succeeds: the source checks only
the buffer size, never `valueCount`. -/
theorem serialize_no_valueCount_check_cex :
    oversizedCountPkt.header.valueCount = 17 ∧
    60 + 17 * 5 + 2 ≤ 255 ∧
    lss_serialize_multi_sensor oversizedCountPkt 255 ≠ none := by
  refine ⟨rfl, by norm_num, ?_⟩
  unfold lss_serialize_multi_sensor
  rw [if_neg (by decide)]
  exact Option.some_ne_none _

/-- **C1 (amended).** `lss_serialize_multi_sensor` fails — returns 0 and
writes nothing — exactly when the output buffer is smaller than
`headerSize + valueCount·5 + 2` bytes; an oversized `valueCount` is not
rejected by the serialiser. -/
theorem serialize_multi_sensor_fails_iff (p : MultiSensorPacket) (bl : Nat) :
    lss_serialize_multi_sensor p bl = none ↔
      bl < 60 + p.header.valueCount * 5 + 2 := by
  unfold lss_serialize_multi_sensor lss_multi_sensor_size
  split
  · simp only [true_iff]; omega
  · simp only [reduceCtorEq, false_iff]; omega

/-- **C3.** `lss_deserialize_multi_sensor` rejects the buffer exactly when
it is shorter than `headerSize + valueCount·5 + 2`, or the sync word is
not `0xABCD`, or `valueCount > 16`, or the trailing CRC differs from the
CRC-16 of the header plus value entries; in every failure case the result
is `none` (no accepted packet). -/
theorem deserialize_multi_sensor_fails_iff (buf : List Nat) :
    lss_deserialize_multi_sensor buf = none ↔
      buf.length < 60 + rd8 buf 6 * 5 + 2 ∨
      rd16 buf 0 ≠ 0xABCD ∨
      16 < rd8 buf 6 ∨
      lss_crc16 (buf.take (60 + rd8 buf 6 * 5)) ≠
        rd16 buf (60 + rd8 buf 6 * 5) := by
  have hsync : (decodeMultiSensorHeader (buf.take 60)).syncWord = rd16 buf 0 :=
    rd16_take buf 60 0 (by omega)
  have hvc : (decodeMultiSensorHeader (buf.take 60)).valueCount = rd8 buf 6 :=
    rd8_take buf 60 6 (by omega)
  simp only [lss_deserialize_multi_sensor, SYNC_MULTI_SENSOR, MAX_SENSOR_VALUES,
    hsync, hvc]
  rcases Nat.lt_or_ge buf.length 62 with h62 | h62
  · rw [if_pos h62]
    simp only [true_iff]
    left; omega
  · rw [if_neg (by omega)]
    by_cases hs : rd16 buf 0 = 0xABCD
    · rw [if_neg (by omega)]
      by_cases hc : 16 < rd8 buf 6
      · rw [if_pos (by omega)]
        simp only [true_iff]
        right; right; left; exact hc
      · rw [if_neg (by omega)]
        by_cases hlen : buf.length < 60 + rd8 buf 6 * 5 + 2
        · rw [if_pos hlen]
          simp only [true_iff]
          left; exact hlen
        · rw [if_neg hlen]
          by_cases hcrc : lss_crc16 (buf.take (60 + rd8 buf 6 * 5)) =
              rd16 buf (60 + rd8 buf 6 * 5)
          · rw [if_neg (by omega)]
            simp only [reduceCtorEq, false_iff]
            push_neg
            exact ⟨by omega, hs, by omega, hcrc⟩
          · rw [if_pos (by omega)]
            simp only [true_iff]
            right; right; right; exact hcrc
    · rw [if_pos (by omega)]
      simp only [true_iff]
      right; left; exact hs

-- ============================================================
-- Command packet codec  (packets.cpp lines 95–119)
-- ============================================================

/-- `CommandPacket` (packed, 201 bytes: 7-byte header + 192-byte data
area + uint16 CRC). -/
structure CommandPacket where
  syncWord : Nat        -- uint16, SYNC_COMMAND = 0xCDEF
  commandType : Nat     -- uint8
  targetSensorId : Nat  -- uint8 (255 = broadcast)
  sequenceNumber : Nat  -- uint8
  dataLength : Nat      -- uint8
  pad : Nat             -- uint8 `_pad`
  data : List Nat       -- uint8[192]
  checksum : Nat        -- uint16
  deriving DecidableEq

def CommandPacket.Wf (p : CommandPacket) : Prop :=
  p.syncWord < 65536 ∧ p.commandType < 256 ∧ p.targetSensorId < 256 ∧
  p.sequenceNumber < 256 ∧ p.dataLength < 256 ∧ p.pad < 256 ∧
  p.data.length = 192 ∧ (∀ x ∈ p.data, x < 256) ∧ p.checksum < 65536

instance (p : CommandPacket) : Decidable p.Wf := by
  unfold CommandPacket.Wf; infer_instance

/-- Bytes of a `CommandPacket` preceding the trailing CRC (199 bytes). -/
def commandBody (p : CommandPacket) : List Nat :=
  u16le p.syncWord ++
  [p.commandType, p.targetSensorId, p.sequenceNumber, p.dataLength, p.pad] ++
  p.data

theorem commandBody_length (p : CommandPacket) (hd : p.data.length = 192) :
    (commandBody p).length = 199 := by
  simp [commandBody, u16le, hd]

/-- `lss_serialize_command`: copies the struct and recomputes the CRC over
everything except the trailing `uint16_t`. -/
def lss_serialize_command (p : CommandPacket) (buf_len : Nat) :
    Option (List Nat) :=
  if buf_len < 201 then none
  else some (commandBody p ++ u16le (lss_crc16 (commandBody p)))

/-- `lss_deserialize_command`: length, sync-word and CRC checks. -/
def lss_deserialize_command (buf : List Nat) : Option CommandPacket :=
  if buf.length < 201 then none
  else
    let p : CommandPacket :=
      { syncWord := rd16 buf 0, commandType := rd8 buf 2,
        targetSensorId := rd8 buf 3, sequenceNumber := rd8 buf 4,
        dataLength := rd8 buf 5, pad := rd8 buf 6,
        data := (buf.drop 7).take 192, checksum := rd16 buf 199 }
    if p.syncWord ≠ SYNC_COMMAND then none
    else if p.checksum ≠ lss_crc16 (buf.take 199) then none
    else some p

-- ============================================================
-- ACK packet codec  (packets.cpp lines 125–149)
-- ============================================================

/-- `AckPacket` (packed, 202 bytes: like `CommandPacket` plus a
`statusCode` byte between the sequence number and the data length). -/
structure AckPacket where
  syncWord : Nat        -- uint16, SYNC_COMMAND = 0xCDEF
  commandType : Nat     -- uint8, CMD_ACK = 0xA0 or CMD_NACK = 0xA1
  sensorId : Nat        -- uint8
  sequenceNumber : Nat  -- uint8
  statusCode : Nat      -- uint8
  dataLength : Nat      -- uint8
  pad : Nat             -- uint8 `_pad`
  data : List Nat       -- uint8[192]
  checksum : Nat        -- uint16
  deriving DecidableEq

def AckPacket.Wf (p : AckPacket) : Prop :=
  p.syncWord < 65536 ∧ p.commandType < 256 ∧ p.sensorId < 256 ∧
  p.sequenceNumber < 256 ∧ p.statusCode < 256 ∧ p.dataLength < 256 ∧
  p.pad < 256 ∧ p.data.length = 192 ∧ (∀ x ∈ p.data, x < 256) ∧
  p.checksum < 65536

instance (p : AckPacket) : Decidable p.Wf := by
  unfold AckPacket.Wf; infer_instance

/-- Bytes of an `AckPacket` preceding the trailing CRC (200 bytes). -/
def ackBody (p : AckPacket) : List Nat :=
  u16le p.syncWord ++
  [p.commandType, p.sensorId, p.sequenceNumber, p.statusCode,
   p.dataLength, p.pad] ++
  p.data

theorem ackBody_length (p : AckPacket) (hd : p.data.length = 192) :
    (ackBody p).length = 200 := by
  simp [ackBody, u16le, hd]

/-- `lss_serialize_ack`. -/
def lss_serialize_ack (p : AckPacket) (buf_len : Nat) : Option (List Nat) :=
  if buf_len < 202 then none
  else some (ackBody p ++ u16le (lss_crc16 (ackBody p)))

/-- Modelled from the spec: the ACK deserialiser lives in the Python base
station (`BaseStation/lss_basestation/packet_parser.py`), which is not
under `src/`.  Per the spec, an acknowledgement frame has the `AckPacket`
layout (sync word, command type, sensor id, sequence number, status code,
data length, pad, 192-byte data area, trailing u16 CRC), fixed total size,
and the CRC must match over all bytes preceding the trailing `uint16_t`. -/
def deserialize_ack (buf : List Nat) : Option AckPacket :=
  if buf.length < 202 then none
  else
    let p : AckPacket :=
      { syncWord := rd16 buf 0, commandType := rd8 buf 2,
        sensorId := rd8 buf 3, sequenceNumber := rd8 buf 4,
        statusCode := rd8 buf 5, dataLength := rd8 buf 6, pad := rd8 buf 7,
        data := (buf.drop 8).take 192, checksum := rd16 buf 200 }
    if p.syncWord ≠ SYNC_COMMAND then none
    else if p.checksum ≠ lss_crc16 (buf.take 200) then none
    else some p

/-- `lss_build_ack`: zero-initialised `AckPacket` with the given fields,
then serialised. -/
def lss_build_ack (ack_type sensor_id seq status_code : Nat)
    (buf_len : Nat) : Option (List Nat) :=
  lss_serialize_ack
    { syncWord := SYNC_COMMAND, commandType := ack_type,
      sensorId := sensor_id, sequenceNumber := seq,
      statusCode := status_code, dataLength := 0, pad := 0,
      data := List.replicate 192 0, checksum := 0 } buf_len

/-- Round-trip for the command codec (helper used by the C2 theorem). -/
theorem cmd_roundtrip_aux (p : CommandPacket) (bl : Nat) (hw : p.Wf)
    (hsync : p.syncWord = SYNC_COMMAND) (hbl : 201 ≤ bl) :
    ∃ B, lss_serialize_command p bl = some B ∧
      lss_crc16 (B.take 199) = rd16 B 199 ∧
      lss_deserialize_command B =
        some { p with checksum := lss_crc16 (commandBody p) } := by
  obtain ⟨h1, h2, h3, h4, h5, h6, hdlen, -, -⟩ := hw
  set crc := lss_crc16 (commandBody p) with hcrc_def
  set B := commandBody p ++ u16le crc with hB_def
  have hbody_len : (commandBody p).length = 199 := commandBody_length p hdlen
  have hBlen : B.length = 201 := by
    rw [hB_def, List.length_append, hbody_len]; rfl
  have hcrc_lt : crc < 65536 := lss_crc16_lt _
  have hshape : B = p.syncWord % 256 :: p.syncWord / 256 % 256 ::
      p.commandType :: p.targetSensorId :: p.sequenceNumber ::
      p.dataLength :: p.pad :: (p.data ++ u16le crc) := by
    simp [hB_def, commandBody, u16le]
  have hrd0 : rd16 B 0 = p.syncWord := by
    rw [hshape]
    simp only [rd16, rd8, List.getD_cons_zero, List.getD_cons_succ]
    omega
  have hdata : (B.drop 7).take 192 = p.data := by
    rw [hshape]
    show (p.data ++ u16le crc).take 192 = p.data
    rw [← hdlen, List.take_left]
  have hck : rd16 B 199 = crc := by
    have := rd16_append (commandBody p) crc [] hcrc_lt
    rw [List.append_nil] at this
    rw [hB_def, ← hbody_len]
    exact this
  have htake199 : B.take 199 = commandBody p := by
    rw [hB_def, ← hbody_len, List.take_left]
  refine ⟨B, ?_, ?_, ?_⟩
  · unfold lss_serialize_command
    rw [if_neg (by omega)]
  · rw [htake199, hck]
  · unfold lss_deserialize_command
    rw [if_neg (by omega)]
    simp only [hrd0, hck, htake199, hsync, SYNC_COMMAND]
    rw [if_neg (by omega), if_neg (by omega)]
    have hc2 : rd8 B 2 = p.commandType := by rw [hshape]; rfl
    have hc3 : rd8 B 3 = p.targetSensorId := by rw [hshape]; rfl
    have hc4 : rd8 B 4 = p.sequenceNumber := by rw [hshape]; rfl
    have hc5 : rd8 B 5 = p.dataLength := by rw [hshape]; rfl
    have hc6 : rd8 B 6 = p.pad := by rw [hshape]; rfl
    refine congrArg some ?_
    rw [hc2, hc3, hc4, hc5, hc6, hdata]

/-- Round-trip for the acknowledgement codec (helper used by the C2
theorem; the deserialiser is spec-modelled). -/
theorem ack_roundtrip_aux (p : AckPacket) (bl : Nat) (hw : p.Wf)
    (hsync : p.syncWord = SYNC_COMMAND) (hbl : 202 ≤ bl) :
    ∃ B, lss_serialize_ack p bl = some B ∧
      lss_crc16 (B.take 200) = rd16 B 200 ∧
      deserialize_ack B =
        some { p with checksum := lss_crc16 (ackBody p) } := by
  obtain ⟨h1, h2, h3, h4, h5, h6, h7, hdlen, -, -⟩ := hw
  set crc := lss_crc16 (ackBody p) with hcrc_def
  set B := ackBody p ++ u16le crc with hB_def
  have hbody_len : (ackBody p).length = 200 := ackBody_length p hdlen
  have hBlen : B.length = 202 := by
    rw [hB_def, List.length_append, hbody_len]; rfl
  have hcrc_lt : crc < 65536 := lss_crc16_lt _
  have hshape : B = p.syncWord % 256 :: p.syncWord / 256 % 256 ::
      p.commandType :: p.sensorId :: p.sequenceNumber :: p.statusCode ::
      p.dataLength :: p.pad :: (p.data ++ u16le crc) := by
    simp [hB_def, ackBody, u16le]
  have hrd0 : rd16 B 0 = p.syncWord := by
    rw [hshape]
    simp only [rd16, rd8, List.getD_cons_zero, List.getD_cons_succ]
    omega
  have hdata : (B.drop 8).take 192 = p.data := by
    rw [hshape]
    show (p.data ++ u16le crc).take 192 = p.data
    rw [← hdlen, List.take_left]
  have hck : rd16 B 200 = crc := by
    have := rd16_append (ackBody p) crc [] hcrc_lt
    rw [List.append_nil] at this
    rw [hB_def, ← hbody_len]
    exact this
  have htake200 : B.take 200 = ackBody p := by
    rw [hB_def, ← hbody_len, List.take_left]
  refine ⟨B, ?_, ?_, ?_⟩
  · unfold lss_serialize_ack
    rw [if_neg (by omega)]
  · rw [htake200, hck]
  · unfold deserialize_ack
    rw [if_neg (by omega)]
    simp only [hrd0, hck, htake200, hsync, SYNC_COMMAND]
    rw [if_neg (by omega), if_neg (by omega)]
    have hc2 : rd8 B 2 = p.commandType := by rw [hshape]; rfl
    have hc3 : rd8 B 3 = p.sensorId := by rw [hshape]; rfl
    have hc4 : rd8 B 4 = p.sequenceNumber := by rw [hshape]; rfl
    have hc5 : rd8 B 5 = p.statusCode := by rw [hshape]; rfl
    have hc6 : rd8 B 6 = p.dataLength := by rw [hshape]; rfl
    have hc7 : rd8 B 7 = p.pad := by rw [hshape]; rfl
    refine congrArg some ?_
    rw [hc2, hc3, hc4, hc5, hc6, hc7, hdata]

/-- **C2.** For every well-formed packet (multi-sensor with
`valueCount ≤ 16` and sync `0xABCD`; command or ACK with sync `0xCDEF`),
serialising into a large-enough buffer succeeds, the trailing CRC of the
produced bytes verifies, and deserialising them yields the packet back
field-wise (header and the first `valueCount` value entries for
multi-sensor; every non-CRC field for command and ACK; the stored CRC is
the recomputed one). -/
theorem serialize_deserialize_roundtrip :
    (∀ (p : MultiSensorPacket) (bl : Nat), p.Wf →
      p.header.syncWord = SYNC_MULTI_SENSOR → p.header.valueCount ≤ 16 →
      lss_multi_sensor_size p ≤ bl →
      ∃ B, lss_serialize_multi_sensor p bl = some B ∧
        lss_crc16 (B.take (60 + p.header.valueCount * 5)) =
          rd16 B (60 + p.header.valueCount * 5) ∧
        lss_deserialize_multi_sensor B =
          some { header := p.header,
                 values := p.values.take p.header.valueCount,
                 checksum := lss_crc16 (multiSensorBody p) }) ∧
    (∀ (p : CommandPacket) (bl : Nat), p.Wf → p.syncWord = SYNC_COMMAND →
      201 ≤ bl →
      ∃ B, lss_serialize_command p bl = some B ∧
        lss_crc16 (B.take 199) = rd16 B 199 ∧
        lss_deserialize_command B =
          some { p with checksum := lss_crc16 (commandBody p) }) ∧
    (∀ (p : AckPacket) (bl : Nat), p.Wf → p.syncWord = SYNC_COMMAND →
      202 ≤ bl →
      ∃ B, lss_serialize_ack p bl = some B ∧
        lss_crc16 (B.take 200) = rd16 B 200 ∧
        deserialize_ack B =
          some { p with checksum := lss_crc16 (ackBody p) }) :=
  ⟨fun p bl hw hs hv hb => ms_roundtrip_aux p bl hw hs hv hb,
   fun p bl hw hs hb => cmd_roundtrip_aux p bl hw hs hb,
   fun p bl hw hs hb => ack_roundtrip_aux p bl hw hs hb⟩

/-- Spec scenario 2: telemetry packet with two values
(temperature 19.5 °C = bits `0x419C0000`, humidity 62 %RH = `0x42780000`),
`location = "Shed"`, `zone = "Outdoor"`, battery 85 %. -/
def msPkt0 : MultiSensorPacket :=
  { header := { syncWord := 0xABCD, networkId := 1, packetType := 1,
                sensorId := 5, valueCount := 2, batteryPercent := 85,
                powerState := 0, lastCommandSeq := 0, ackStatus := 0, pad := 0,
                location := [0x53, 0x68, 0x65, 0x64] ++ List.replicate 28 0,
                zone := [0x4F, 0x75, 0x74, 0x64, 0x6F, 0x6F, 0x72]
                  ++ List.replicate 9 0 },
    values := [⟨0, 0x419C0000⟩, ⟨1, 0x42780000⟩] ++ List.replicate 14 ⟨0, 0⟩,
    checksum := 0 }

/-- Spec scenario 3: `SET_INTERVAL` command, target node 7, sequence 42,
payload little-endian `15000`. -/
def cmdPkt0 : CommandPacket :=
  { syncWord := 0xCDEF, commandType := 0x02, targetSensorId := 7,
    sequenceNumber := 42, dataLength := 4, pad := 0,
    data := u32le 15000 ++ List.replicate 188 0, checksum := 0 }

/-- An ACK from node 3 for sequence 7, status 0. -/
def ackPkt0 : AckPacket :=
  { syncWord := 0xCDEF, commandType := 0xA0, sensorId := 3,
    sequenceNumber := 7, statusCode := 0, dataLength := 0, pad := 0,
    data := List.replicate 192 0, checksum := 0 }

/-- Witness for C2 at the concrete packets of the spec's scenarios. -/
theorem serialize_deserialize_roundtrip_witness :
    (msPkt0.Wf ∧ msPkt0.header.syncWord = SYNC_MULTI_SENSOR ∧
      msPkt0.header.valueCount ≤ 16 ∧ lss_multi_sensor_size msPkt0 ≤ 255 ∧
      ∃ B, lss_serialize_multi_sensor msPkt0 255 = some B ∧
        lss_crc16 (B.take (60 + msPkt0.header.valueCount * 5)) =
          rd16 B (60 + msPkt0.header.valueCount * 5) ∧
        lss_deserialize_multi_sensor B =
          some { header := msPkt0.header,
                 values := msPkt0.values.take msPkt0.header.valueCount,
                 checksum := lss_crc16 (multiSensorBody msPkt0) }) ∧
    (cmdPkt0.Wf ∧ cmdPkt0.syncWord = SYNC_COMMAND ∧ 201 ≤ 201 ∧
      ∃ B, lss_serialize_command cmdPkt0 201 = some B ∧
        lss_crc16 (B.take 199) = rd16 B 199 ∧
        lss_deserialize_command B =
          some { cmdPkt0 with checksum := lss_crc16 (commandBody cmdPkt0) }) ∧
    (ackPkt0.Wf ∧ ackPkt0.syncWord = SYNC_COMMAND ∧ 202 ≤ 202 ∧
      ∃ B, lss_serialize_ack ackPkt0 202 = some B ∧
        lss_crc16 (B.take 200) = rd16 B 200 ∧
        deserialize_ack B =
          some { ackPkt0 with checksum := lss_crc16 (ackBody ackPkt0) }) :=
  ⟨⟨by decide, rfl, by decide, by decide,
    serialize_deserialize_roundtrip.1 msPkt0 255 (by decide) rfl (by decide)
      (by decide)⟩,
   ⟨by decide, rfl, by decide,
    serialize_deserialize_roundtrip.2.1 cmdPkt0 201 (by decide) rfl
      (by decide)⟩,
   ⟨by decide, rfl, by decide,
    serialize_deserialize_roundtrip.2.2 ackPkt0 202 (by decide) rfl
      (by decide)⟩⟩

-- ============================================================
-- Mesh router  (mesh.h / mesh.cpp)
-- ============================================================

def MESH_MAX_ROUTES : Nat := 20
def MESH_MAX_HOPS : Nat := 5
def MESH_ROUTE_TIMEOUT : Nat := 600000
def MESH_BEACON_INTERVAL : Nat := 30000

def MESH_DATA : Nat := 0
def MESH_ROUTE_REQUEST : Nat := 1
def MESH_NEIGHBOR_BEACON : Nat := 4

/-- `RouteEntry`. -/
structure RouteEntry where
  destId : Nat       -- uint8
  nextHop : Nat      -- uint8
  hopCount : Nat     -- uint8
  lastUpdated : Nat  -- uint32 millis() timestamp
  valid : Bool
  deriving DecidableEq

/-- `MeshHeader` (packed, 9 bytes). -/
structure MeshHeader where
  packetType : Nat   -- uint8
  sourceId : Nat     -- uint8
  destId : Nat       -- uint8 (255 = broadcast)
  nextHop : Nat      -- uint8
  prevHop : Nat      -- uint8
  hopCount : Nat     -- uint8
  ttl : Nat          -- uint8
  sequenceNum : Nat  -- uint16
  deriving DecidableEq

/-- Byte image of a `MeshHeader`. -/
def encodeMeshHeader (h : MeshHeader) : List Nat :=
  [h.packetType, h.sourceId, h.destId, h.nextHop, h.prevHop,
   h.hopCount, h.ttl] ++ u16le h.sequenceNum

/-- Decoding a `MeshHeader` from bytes (the receiving `memcpy`). -/
def decodeMeshHeader (b : List Nat) : MeshHeader :=
  { packetType := rd8 b 0, sourceId := rd8 b 1, destId := rd8 b 2,
    nextHop := rd8 b 3, prevHop := rd8 b 4, hopCount := rd8 b 5,
    ttl := rd8 b 6, sequenceNum := rd16 b 7 }

/-- `MeshRouter` state (`_node_id`, `_enabled`, `_routes[20]`, `_seq`,
`_last_beacon`). -/
structure MeshRouter where
  node_id : Nat
  enabled : Bool
  routes : List RouteEntry
  seq : Nat          -- uint16
  last_beacon : Nat  -- uint32
  deriving DecidableEq

/-- The constructor `MeshRouter(node_id, enabled)`: route table zeroed. -/
def MeshRouter.init (node_id : Nat) (enabled : Bool) : MeshRouter :=
  { node_id := node_id, enabled := enabled,
    routes := List.replicate MESH_MAX_ROUTES ⟨0, 0, 0, 0, false⟩,
    seq := 0, last_beacon := 0 }

/-- `_find_route`: index of the first valid entry for `dest_id`, scanning
upward from 0 (`-1` in C becomes `none`). -/
def findRouteIdx (d : Nat) : List RouteEntry → Option Nat
  | [] => none
  | e :: rest =>
    if e.valid = true ∧ e.destId = d then some 0
    else (findRouteIdx d rest).map (· + 1)

/-- Inner loop of `_alloc_slot`: first invalid slot, scanning upward. -/
def firstInvalidIdx : List RouteEntry → Option Nat
  | [] => none
  | e :: rest =>
    if e.valid = false then some 0
    else (firstInvalidIdx rest).map (· + 1)

/-- Eviction scan of `_alloc_slot`: index of the entry with the strictly
oldest `lastUpdated` (first index wins ties), accumulator style exactly as
the C loop (`i` is the index of the head of the remaining list). -/
def oldestIdxAux (i best bestTs : Nat) : List RouteEntry → Nat
  | [] => best
  | e :: rest =>
    if e.lastUpdated < bestTs then oldestIdxAux (i + 1) i e.lastUpdated rest
    else oldestIdxAux (i + 1) best bestTs rest

/-- `_alloc_slot`: prefer an invalid slot, otherwise evict the oldest. -/
def alloc_slot (routes : List RouteEntry) : Nat :=
  match firstInvalidIdx routes with
  | some i => i
  | none =>
    match routes with
    | [] => 0
    | e :: rest => oldestIdxAux 1 0 e.lastUpdated rest

/-- `update_route`: insert or refresh the entry for `dest_id`. -/
def MeshRouter.update_route (r : MeshRouter) (d nh hc now : Nat) : MeshRouter :=
  let idx := match findRouteIdx d r.routes with
             | some i => i
             | none => alloc_slot r.routes
  { r with routes := r.routes.set idx ⟨d, nh, hc, now, true⟩ }

/-- `next_hop_for`: stored next hop if a valid entry exists, else 255. -/
def MeshRouter.next_hop_for (r : MeshRouter) (d : Nat) : Nat :=
  match findRouteIdx d r.routes with
  | some i =>
    match r.routes.get? i with
    | some e => if e.valid then e.nextHop else 255
    | none => 255
  | none => 255

/-- `evict_stale_routes`: invalidate entries older than the route timeout
(unsigned 32-bit elapsed-time arithmetic). -/
def MeshRouter.evict_stale_routes (r : MeshRouter) (now : Nat) : MeshRouter :=
  { r with routes := r.routes.map fun e =>
      if e.valid = true ∧ MESH_ROUTE_TIMEOUT < sub32 now e.lastUpdated
      then { e with valid := false } else e }

/-- `MeshRouter::receive`: returns the updated router and `some payload`
when the payload is delivered to the upper layer, `none` when the frame is
dropped or left for forwarding.  `now` is the `millis()` clock used for
route refreshes. -/
def MeshRouter.receive (r : MeshRouter) (now : Nat) (raw : List Nat) :
    MeshRouter × Option (List Nat) :=
  if raw.length < 9 then (r, none)
  else
    let hdr := decodeMeshHeader (raw.take 9)
    if MESH_MAX_HOPS ≤ hdr.hopCount then (r, none)
    else
      let r1 := if hdr.prevHop ≠ 0 ∧ hdr.prevHop ≠ 255
                then r.update_route hdr.sourceId hdr.prevHop hdr.hopCount now
                else r
      if hdr.packetType = MESH_NEIGHBOR_BEACON then
        (r1.update_route hdr.sourceId hdr.sourceId 1 now, none)
      else if hdr.packetType = MESH_ROUTE_REQUEST then
        if hdr.destId = r.node_id then (r1, some (raw.drop 9)) else (r1, none)
      else if hdr.destId = r.node_id ∨ hdr.destId = 255 then
        (r1, some (raw.drop 9))
      else (r1, none)

/-- `MeshRouter::wrap`: prepend a mesh header. -/
def MeshRouter.wrap (r : MeshRouter) (dest_id : Nat) (payload : List Nat)
    (buf_len : Nat) : MeshRouter × Option (List Nat) :=
  if buf_len < 9 + payload.length then (r, none)
  else
    let hdr : MeshHeader :=
      { packetType := MESH_DATA, sourceId := r.node_id, destId := dest_id,
        nextHop := if dest_id = 255 then 255 else r.next_hop_for dest_id,
        prevHop := r.node_id, hopCount := 0, ttl := MESH_MAX_HOPS,
        sequenceNum := r.seq % 65536 }
    ({ r with seq := (r.seq + 1) % 65536 },
     some (encodeMeshHeader hdr ++ payload))

/-- `MeshRouter::tick`: evict stale routes; emit a beacon at most once per
beacon interval.  Returns the updated router and the bytes written
(`[]` ≙ the C function returns 0).  `evict_stale_routes` touches only the
route table, so reading `_last_beacon` and `_seq` before or after it is
the same; the interval check and the emitted sequence number therefore use
`r.last_beacon` and `r.seq` directly. -/
def MeshRouter.tick (r : MeshRouter) (now : Nat) (buf_len : Nat) :
    MeshRouter × List Nat :=
  if sub32 now r.last_beacon < MESH_BEACON_INTERVAL then
    (r.evict_stale_routes now, [])
  else if buf_len < 9 then
    ({ (r.evict_stale_routes now) with last_beacon := now }, [])
  else
    ({ (r.evict_stale_routes now) with
        last_beacon := now,
        seq := (r.seq + 1) % 65536 },
     encodeMeshHeader
       { packetType := MESH_NEIGHBOR_BEACON, sourceId := r.node_id,
         destId := 255, nextHop := 255, prevHop := r.node_id,
         hopCount := 0, ttl := 1, sequenceNum := r.seq % 65536 })

-- ============================================================
-- Route-table lemmas
-- ============================================================

theorem findRouteIdx_set_found (d : Nat) (e : RouteEntry)
    (he : e.valid = true ∧ e.destId = d) :
    ∀ (routes : List RouteEntry) (i : Nat), findRouteIdx d routes = some i →
      findRouteIdx d (routes.set i e) = some i ∧
      (routes.set i e)[i]? = some e := by
  intro routes
  induction routes with
  | nil => intro i h; simp [findRouteIdx] at h
  | cons x rest ih =>
    intro i h
    by_cases hx : x.valid = true ∧ x.destId = d
    · rw [findRouteIdx, if_pos hx] at h
      obtain rfl : (0 : Nat) = i := by injection h
      exact ⟨by rw [List.set_cons_zero, findRouteIdx, if_pos he],
        by rw [List.set_cons_zero]; simp⟩
    · rw [findRouteIdx, if_neg hx] at h
      cases hfr : findRouteIdx d rest with
      | none => rw [hfr] at h; simp at h
      | some j =>
        rw [hfr] at h
        obtain rfl : j + 1 = i := by injection h
        obtain ⟨h1, h2⟩ := ih j hfr
        refine ⟨?_, by rw [List.set_cons_succ]; simpa using h2⟩
        rw [List.set_cons_succ, findRouteIdx, if_neg hx, h1]
        rfl

theorem findRouteIdx_set_new (d : Nat) (e : RouteEntry)
    (he : e.valid = true ∧ e.destId = d) :
    ∀ (routes : List RouteEntry) (i : Nat), findRouteIdx d routes = none →
      i < routes.length →
      findRouteIdx d (routes.set i e) = some i ∧
      (routes.set i e)[i]? = some e := by
  intro routes
  induction routes with
  | nil => intro i _ hi; simp at hi
  | cons x rest ih =>
    intro i h hi
    have hx : ¬(x.valid = true ∧ x.destId = d) := by
      intro hx
      rw [findRouteIdx, if_pos hx] at h
      exact Option.some_ne_none 0 h
    rw [findRouteIdx, if_neg hx] at h
    have hrest : findRouteIdx d rest = none := by
      cases hfr : findRouteIdx d rest with
      | none => rfl
      | some j => rw [hfr] at h; simp at h
    cases i with
    | zero =>
      exact ⟨by rw [List.set_cons_zero, findRouteIdx, if_pos he],
        by rw [List.set_cons_zero]; simp⟩
    | succ j =>
      obtain ⟨h1, h2⟩ := ih j hrest (by simpa using hi)
      refine ⟨?_, by rw [List.set_cons_succ]; simpa using h2⟩
      rw [List.set_cons_succ, findRouteIdx, if_neg hx, h1]
      rfl

theorem firstInvalidIdx_lt :
    ∀ (routes : List RouteEntry) (i : Nat), firstInvalidIdx routes = some i →
      i < routes.length := by
  intro routes
  induction routes with
  | nil => intro i h; simp [firstInvalidIdx] at h
  | cons x rest ih =>
    intro i h
    rw [firstInvalidIdx] at h
    split at h
    · obtain rfl : (0 : Nat) = i := by injection h
      simp
    · cases hfr : firstInvalidIdx rest with
      | none => rw [hfr] at h; simp at h
      | some j =>
        rw [hfr] at h
        obtain rfl : j + 1 = i := by injection h
        have := ih j hfr
        simp only [List.length_cons]
        omega

theorem oldestIdxAux_lt :
    ∀ (rest : List RouteEntry) (i best ts : Nat), best < i →
      oldestIdxAux i best ts rest < i + rest.length := by
  intro rest
  induction rest with
  | nil => intro i best ts h; simpa [oldestIdxAux] using h
  | cons x rest ih =>
    intro i best ts h
    rw [oldestIdxAux]
    split
    · have := ih (i + 1) i x.lastUpdated (by omega)
      simp only [List.length_cons]
      omega
    · have := ih (i + 1) best ts (by omega)
      simp only [List.length_cons]
      omega

theorem alloc_slot_lt (routes : List RouteEntry) (h : routes ≠ []) :
    alloc_slot routes < routes.length := by
  unfold alloc_slot
  cases hfi : firstInvalidIdx routes with
  | some i => exact firstInvalidIdx_lt routes i hfi
  | none =>
    cases routes with
    | nil => exact absurd rfl h
    | cons e rest =>
      have := oldestIdxAux_lt rest 1 0 e.lastUpdated (by omega)
      simp only [List.length_cons]
      omega

theorem update_route_routes_length (r : MeshRouter) (d nh hc t : Nat) :
    (r.update_route d nh hc t).routes.length = r.routes.length := by
  simp [MeshRouter.update_route]

/-- After `update_route(d, nh, hc)`, `next_hop_for(d)` returns `nh`. -/
theorem next_hop_for_update_route (r : MeshRouter) (d nh hc t : Nat)
    (h : 0 < r.routes.length) :
    (r.update_route d nh hc t).next_hop_for d = nh := by
  have he : (⟨d, nh, hc, t, true⟩ : RouteEntry).valid = true ∧
      (⟨d, nh, hc, t, true⟩ : RouteEntry).destId = d := ⟨rfl, rfl⟩
  unfold MeshRouter.update_route MeshRouter.next_hop_for
  cases hfr : findRouteIdx d r.routes with
  | some i =>
    obtain ⟨h1, h2⟩ := findRouteIdx_set_found d _ he r.routes i hfr
    simp [h1, h2]
  | none =>
    have hi : alloc_slot r.routes < r.routes.length :=
      alloc_slot_lt _ (by intro hnil; rw [hnil] at h; simp at h)
    obtain ⟨h1, h2⟩ := findRouteIdx_set_new d _ he r.routes _ hfr hi
    simp [h1, h2]

-- ============================================================
-- C5 / C6: receive — deliver vs. forward vs. drop
-- ============================================================

/-- **C5.** For a mesh DATA frame: a frame shorter than the 9-byte mesh
header is dropped; a frame with `hopCount ≥ maxHops` (5) is dropped; and
otherwise the payload is delivered to the upper layer exactly when the
destination is this node or the broadcast id 255 (a frame addressed to
another node is left for forwarding, not delivered). -/
theorem mesh_data_deliver_iff (r : MeshRouter) (now : Nat) (raw : List Nat)
    (hpt : (decodeMeshHeader (raw.take 9)).packetType = MESH_DATA) :
    (raw.length < 9 → (r.receive now raw).2 = none) ∧
    (MESH_MAX_HOPS ≤ (decodeMeshHeader (raw.take 9)).hopCount →
      (r.receive now raw).2 = none) ∧
    (9 ≤ raw.length →
      (decodeMeshHeader (raw.take 9)).hopCount < MESH_MAX_HOPS →
      ((r.receive now raw).2 = some (raw.drop 9) ↔
        (decodeMeshHeader (raw.take 9)).destId = r.node_id ∨
        (decodeMeshHeader (raw.take 9)).destId = 255)) := by
  refine ⟨?_, ?_, ?_⟩
  · intro hshort
    unfold MeshRouter.receive
    rw [if_pos hshort]
  · intro hhop
    unfold MeshRouter.receive
    split
    · rfl
    · rw [if_pos hhop]
  · intro hlen hhop
    unfold MeshRouter.receive
    rw [if_neg (by omega), if_neg (by omega), hpt,
        if_neg (by simp [MESH_DATA, MESH_NEIGHBOR_BEACON]),
        if_neg (by simp [MESH_DATA, MESH_ROUTE_REQUEST])]
    by_cases hdest : (decodeMeshHeader (raw.take 9)).destId = r.node_id ∨
        (decodeMeshHeader (raw.take 9)).destId = 255
    · rw [if_pos hdest]
      exact iff_of_true rfl hdest
    · rw [if_neg hdest]
      exact iff_of_false (by simp) hdest

/-- **C6.** When a router receives a neighbour beacon (within the hop
limit), no payload is delivered to the upper layer, and afterwards
`next_hop_for(sourceId) = sourceId`: a one-hop route to the beacon's
source via itself is recorded.  (The C route table always has 20 slots.) -/
theorem mesh_beacon_learns_neighbour (r : MeshRouter) (now : Nat)
    (raw : List Nat) (hlen20 : r.routes.length = 20) (h9 : 9 ≤ raw.length)
    (hpt : (decodeMeshHeader (raw.take 9)).packetType = MESH_NEIGHBOR_BEACON)
    (hhop : (decodeMeshHeader (raw.take 9)).hopCount < MESH_MAX_HOPS) :
    (r.receive now raw).2 = none ∧
    (r.receive now raw).1.next_hop_for (decodeMeshHeader (raw.take 9)).sourceId
      = (decodeMeshHeader (raw.take 9)).sourceId := by
  unfold MeshRouter.receive
  rw [if_neg (by omega), if_neg (by omega), hpt, if_pos rfl]
  refine ⟨rfl, ?_⟩
  set hdr := decodeMeshHeader (raw.take 9) with hhdr
  set r1 := if hdr.prevHop ≠ 0 ∧ hdr.prevHop ≠ 255
            then r.update_route hdr.sourceId hdr.prevHop hdr.hopCount now
            else r with hr1
  have hr1len : 0 < r1.routes.length := by
    rw [hr1]
    split
    · rw [update_route_routes_length, hlen20]; omega
    · omega
  exact next_hop_for_update_route r1 hdr.sourceId hdr.sourceId 1 now hr1len

/-- Router at node 5 with mesh enabled, fresh route table. -/
def router5 : MeshRouter := MeshRouter.init 5 true

/-- A DATA frame `source=1 dest=5 hop=0 ttl=5` with a 2-byte payload. -/
def dataFrame0 : List Nat := [0, 1, 5, 255, 1, 0, 5, 0, 0] ++ [7, 7]

/-- Witness for C5: router 5 delivers the payload of a DATA frame
addressed to node 5. -/
theorem mesh_data_deliver_iff_witness :
    (decodeMeshHeader (dataFrame0.take 9)).packetType = MESH_DATA ∧
    9 ≤ dataFrame0.length ∧
    (decodeMeshHeader (dataFrame0.take 9)).hopCount < MESH_MAX_HOPS ∧
    (router5.receive 1000 dataFrame0).2 = some (dataFrame0.drop 9) :=
  ⟨by decide, by decide, by decide,
   ((mesh_data_deliver_iff router5 1000 dataFrame0 (by decide)).2.2
      (by decide) (by decide)).mpr (by decide)⟩

/-- A neighbour beacon from node 2 (`dest=255`, `hop=0`, `ttl=1`). -/
def beaconFrame0 : List Nat := [4, 2, 255, 255, 2, 0, 1, 0, 0]

/-- Witness for C6: router 5 learns `next_hop_for(2) = 2` from a beacon
sent by node 2, with nothing delivered upward. -/
theorem mesh_beacon_learns_neighbour_witness :
    router5.routes.length = 20 ∧ 9 ≤ beaconFrame0.length ∧
    (decodeMeshHeader (beaconFrame0.take 9)).packetType =
      MESH_NEIGHBOR_BEACON ∧
    (decodeMeshHeader (beaconFrame0.take 9)).hopCount < MESH_MAX_HOPS ∧
    ((router5.receive 1000 beaconFrame0).2 = none ∧
      (router5.receive 1000 beaconFrame0).1.next_hop_for 2 = 2) :=
  ⟨by decide, by decide, by decide, by decide,
   mesh_beacon_learns_neighbour router5 1000 beaconFrame0 (by decide)
     (by decide) (by decide) (by decide)⟩

-- ============================================================
-- C8 / C9: tick — beacon rate limiting and the small-buffer slip
-- ============================================================

/-- **C8.** If a `tick` call at time `t1` produced a beacon, a following
`tick` less than the 30 s beacon interval later returns zero bytes. -/
theorem tick_at_most_once_per_interval (r : MeshRouter)
    (t1 bl1 t2 bl2 : Nat) (hbeacon : (r.tick t1 bl1).2 ≠ [])
    (hwithin : sub32 t2 t1 < MESH_BEACON_INTERVAL) :
    ((r.tick t1 bl1).1.tick t2 bl2).2 = [] := by
  unfold MeshRouter.tick at hbeacon ⊢
  by_cases h1 : sub32 t1 r.last_beacon < MESH_BEACON_INTERVAL
  · rw [if_pos h1] at hbeacon
    exact absurd rfl hbeacon
  · rw [if_neg h1] at hbeacon ⊢
    by_cases h2 : bl1 < 9
    · rw [if_pos h2] at hbeacon
      exact absurd rfl hbeacon
    · rw [if_neg h2]
      split
      · rfl
      · rename_i hcond
        exact absurd hwithin hcond

/-- **C9.** If a beacon is due but `tick` is given a buffer smaller than
the 9-byte mesh header, it returns zero bytes while still advancing the
last-beacon timestamp to `now`; a following call within the interval, even
with a large-enough buffer, also returns zero bytes — the beacon for that
interval is silently lost. -/
theorem tick_small_buffer_loses_beacon (r : MeshRouter) (now bl : Nat)
    (hdue : MESH_BEACON_INTERVAL ≤ sub32 now r.last_beacon) (hsmall : bl < 9) :
    (r.tick now bl).2 = [] ∧
    (r.tick now bl).1.last_beacon = now ∧
    (∀ now2 bl2, 9 ≤ bl2 → sub32 now2 now < MESH_BEACON_INTERVAL →
      ((r.tick now bl).1.tick now2 bl2).2 = []) := by
  have hdue0 : ¬(sub32 now r.last_beacon < MESH_BEACON_INTERVAL) := by omega
  refine ⟨?_, ?_, ?_⟩
  · unfold MeshRouter.tick
    rw [if_neg hdue0, if_pos hsmall]
  · unfold MeshRouter.tick
    rw [if_neg hdue0, if_pos hsmall]
  · intro now2 bl2 _ hwithin
    unfold MeshRouter.tick
    rw [if_neg hdue0, if_pos hsmall]
    split
    · rfl
    · rename_i hcond
      exact absurd hwithin hcond

/-- Witness for C8: a fresh router beacons at `t = 30000` and then stays
silent at `t = 30010`. -/
theorem tick_at_most_once_per_interval_witness :
    (router5.tick 30000 9).2 ≠ [] ∧ sub32 30010 30000 < MESH_BEACON_INTERVAL ∧
    ((router5.tick 30000 9).1.tick 30010 9).2 = [] :=
  ⟨by decide, by decide,
   tick_at_most_once_per_interval router5 30000 9 30010 9 (by decide)
     (by decide)⟩

/-- Witness for C9: due beacon at `t = 30000` with a 5-byte buffer is
lost; the immediately following call at `t = 30005` with a 9-byte buffer
also returns nothing. -/
theorem tick_small_buffer_loses_beacon_witness :
    MESH_BEACON_INTERVAL ≤ sub32 30000 router5.last_beacon ∧ 5 < 9 ∧
    (router5.tick 30000 5).2 = [] ∧
    (router5.tick 30000 5).1.last_beacon = 30000 ∧
    ((router5.tick 30000 5).1.tick 30005 9).2 = [] :=
  ⟨by decide, by decide,
   (tick_small_buffer_loses_beacon router5 30000 5 (by decide) (by decide)).1,
   (tick_small_buffer_loses_beacon router5 30000 5 (by decide) (by decide)).2.1,
   (tick_small_buffer_loses_beacon router5 30000 5 (by decide)
      (by decide)).2.2 30005 9 (by decide) (by decide)⟩

-- ============================================================
-- Node configuration  (node_config.h / node_config.cpp)
-- ============================================================

def LOCATION_MAXLEN : Nat := 32
def ZONE_MAXLEN : Nat := 16

def CMD_PING : Nat := 0x00
def CMD_GET_CONFIG : Nat := 0x01
def CMD_SET_INTERVAL : Nat := 0x02
def CMD_SET_LOCATION : Nat := 0x03
def CMD_SET_TEMP_THRESH : Nat := 0x04
def CMD_SET_BATTERY_THRESH : Nat := 0x05
def CMD_SET_MESH_CONFIG : Nat := 0x06
def CMD_RESTART : Nat := 0x07
def CMD_FACTORY_RESET : Nat := 0x08
def CMD_SET_LORA_PARAMS : Nat := 0x09
def CMD_TIME_SYNC : Nat := 0x0A
def CMD_SENSOR_ANNOUNCE : Nat := 0x0B
def CMD_BASE_WELCOME : Nat := 0x0C
def CMD_ACK : Nat := 0xA0
def CMD_NACK : Nat := 0xA1

/-- Content of a C string copied by `strncpy(dst, src, n)` followed by a
forced NUL terminator: the bytes of `src` before its first NUL, at most
`n` of them. -/
def cstr (n : Nat) (bs : List Nat) : List Nat := (bs.take n).takeWhile (· ≠ 0)

/-- `strnlen(bs, n)`. -/
def strnlenN (bs : List Nat) (n : Nat) : Nat := (cstr n bs).length

/-- Signed little-endian `int16_t` at offset `i`. -/
def rdi16 (b : List Nat) (i : Nat) : Int :=
  if rd16 b i < 32768 then (rd16 b i : Int) else (rd16 b i : Int) - 65536

/-- `NodeConfig`.  Strings are the C-string contents (bytes before the
NUL); `float` fields are raw IEEE-754 bit patterns. -/
structure NodeConfig where
  nodeId : Nat                  -- uint8
  networkId : Nat               -- uint16
  telemetryIntervalMs : Nat     -- uint32
  location : List Nat           -- char[32]
  zone : List Nat               -- char[16]
  tempThreshHigh : Nat          -- float bits
  tempThreshLow : Nat           -- float bits
  batteryThreshLow : Nat        -- float bits
  batteryThreshCritical : Nat   -- float bits
  loraFrequency : Nat           -- float bits
  loraSpreadingFactor : Nat     -- uint8
  loraTxPower : Nat             -- uint8
  meshEnabled : Bool
  tzOffsetMinutes : Int         -- int32
  lastTimeSync : Nat            -- uint32
  deriving DecidableEq

/-- `_fill_defaults` (node_config.cpp).  Float defaults as bit patterns:
`50.0f = 0x42480000`, `-20.0f = 0xC1A00000`, `20.0f = 0x41A00000`,
`10.0f = 0x41200000`, `915.0f = 0x4464C000`. -/
def defaultNodeConfig : NodeConfig :=
  { nodeId := 1, networkId := 1, telemetryIntervalMs := 30000,
    location := [0x55, 0x6E, 0x6B, 0x6E, 0x6F, 0x77, 0x6E],   -- "Unknown"
    zone := [0x64, 0x65, 0x66, 0x61, 0x75, 0x6C, 0x74],       -- "default"
    tempThreshHigh := 0x42480000, tempThreshLow := 0xC1A00000,
    batteryThreshLow := 0x41A00000, batteryThreshCritical := 0x41200000,
    loraFrequency := 0x4464C000, loraSpreadingFactor := 10,
    loraTxPower := 20, meshEnabled := true, tzOffsetMinutes := 0,
    lastTimeSync := 0 }

-- ============================================================
-- Command applier  (command_handler.cpp, handle_command)
-- ============================================================

/-- Result of `handle_command`: the configuration after the command, the
mesh router, whether `cfg_store.save()` was invoked, and the bytes of the
ACK/NACK written into `ack_buf` (`none` ≙ nothing written). -/
structure HandleResult where
  cfg : NodeConfig
  mesh : MeshRouter
  saved : Bool
  ack : Option (List Nat)
  deriving DecidableEq

/-- The `_ack` helper: `CMD_ACK`/status 0 on success, `CMD_NACK`/status 1
on failure. -/
def ack_response (sensor_id seq : Nat) (success : Bool) (buf_len : Nat) :
    Option (List Nat) :=
  lss_build_ack (if success then CMD_ACK else CMD_NACK) sensor_id seq
    (if success then 0 else 1) buf_len

/-- `handle_command` (production build: `CMD_RESTART` and
`CMD_FACTORY_RESET` transmit a status-0 ACK and then reboot, so their
result is the ACK built before the reboot; `factory_reset()` restores
the defaults and saves).

In the `CMD_SET_LOCATION` case, C computes
`remaining = dataLength - (loc_len + 1)` in `size_t`; when
`dataLength < loc_len + 1` that wraps to a huge value which fails
`remaining <= ZONE_MAXLEN`, and the truncating `Nat` subtraction here
fails `0 < remaining` — either way the zone is not copied, so the guards
agree. -/
def handle_command (pkt : CommandPacket) (cfg : NodeConfig)
    (mesh : MeshRouter) (ack_len : Nat) : HandleResult :=
  if pkt.commandType = CMD_PING then
    ⟨cfg, mesh, false, ack_response cfg.nodeId pkt.sequenceNumber true ack_len⟩
  else if pkt.commandType = CMD_GET_CONFIG then
    ⟨cfg, mesh, false, ack_response cfg.nodeId pkt.sequenceNumber true ack_len⟩
  else if pkt.commandType = CMD_SET_INTERVAL then
    if 4 ≤ pkt.dataLength then
      if 1000 ≤ rd32 pkt.data 0 ∧ rd32 pkt.data 0 ≤ 3600000 then
        ⟨{ cfg with telemetryIntervalMs := rd32 pkt.data 0 }, mesh, true,
         ack_response cfg.nodeId pkt.sequenceNumber true ack_len⟩
      else
        ⟨cfg, mesh, false,
         ack_response cfg.nodeId pkt.sequenceNumber false ack_len⟩
    else
      ⟨cfg, mesh, false,
       ack_response cfg.nodeId pkt.sequenceNumber false ack_len⟩
  else if pkt.commandType = CMD_SET_LOCATION then
    ⟨if 0 < pkt.dataLength - (strnlenN pkt.data LOCATION_MAXLEN + 1) ∧
        pkt.dataLength - (strnlenN pkt.data LOCATION_MAXLEN + 1) ≤ ZONE_MAXLEN
     then { cfg with
             location := cstr (LOCATION_MAXLEN - 1) pkt.data,
             zone := cstr (ZONE_MAXLEN - 1)
               (pkt.data.drop (strnlenN pkt.data LOCATION_MAXLEN + 1)) }
     else { cfg with location := cstr (LOCATION_MAXLEN - 1) pkt.data },
     mesh, true, ack_response cfg.nodeId pkt.sequenceNumber true ack_len⟩
  else if pkt.commandType = CMD_SET_TEMP_THRESH then
    if 8 ≤ pkt.dataLength then
      ⟨{ cfg with
          tempThreshLow := rd32 pkt.data 0,
          tempThreshHigh := rd32 pkt.data 4 }, mesh, true,
       ack_response cfg.nodeId pkt.sequenceNumber true ack_len⟩
    else
      ⟨cfg, mesh, false,
       ack_response cfg.nodeId pkt.sequenceNumber false ack_len⟩
  else if pkt.commandType = CMD_SET_BATTERY_THRESH then
    if 8 ≤ pkt.dataLength then
      ⟨{ cfg with
          batteryThreshLow := rd32 pkt.data 0,
          batteryThreshCritical := rd32 pkt.data 4 }, mesh, true,
       ack_response cfg.nodeId pkt.sequenceNumber true ack_len⟩
    else
      ⟨cfg, mesh, false,
       ack_response cfg.nodeId pkt.sequenceNumber false ack_len⟩
  else if pkt.commandType = CMD_SET_MESH_CONFIG then
    if 1 ≤ pkt.dataLength then
      ⟨{ cfg with meshEnabled := rd8 pkt.data 0 != 0 },
       { mesh with enabled := rd8 pkt.data 0 != 0 }, true,
       ack_response cfg.nodeId pkt.sequenceNumber true ack_len⟩
    else
      ⟨cfg, mesh, false,
       ack_response cfg.nodeId pkt.sequenceNumber false ack_len⟩
  else if pkt.commandType = CMD_RESTART then
    ⟨cfg, mesh, false,
     lss_build_ack CMD_ACK cfg.nodeId pkt.sequenceNumber 0 ack_len⟩
  else if pkt.commandType = CMD_FACTORY_RESET then
    ⟨defaultNodeConfig, mesh, true,
     lss_build_ack CMD_ACK cfg.nodeId pkt.sequenceNumber 0 ack_len⟩
  else if pkt.commandType = CMD_SET_LORA_PARAMS then
    if 7 ≤ pkt.dataLength then
      ⟨{ cfg with
          loraFrequency := rd32 pkt.data 0,
          loraSpreadingFactor := rd8 pkt.data 4,
          loraTxPower := rd8 pkt.data 6 }, mesh, true,
       ack_response cfg.nodeId pkt.sequenceNumber true ack_len⟩
    else
      ⟨cfg, mesh, false,
       ack_response cfg.nodeId pkt.sequenceNumber false ack_len⟩
  else if pkt.commandType = CMD_TIME_SYNC ∨
      pkt.commandType = CMD_BASE_WELCOME then
    if 6 ≤ pkt.dataLength then
      ⟨{ cfg with
          lastTimeSync := rd32 pkt.data 0,
          tzOffsetMinutes := rdi16 pkt.data 4 }, mesh, true,
       ack_response cfg.nodeId pkt.sequenceNumber true ack_len⟩
    else
      ⟨cfg, mesh, false,
       ack_response cfg.nodeId pkt.sequenceNumber false ack_len⟩
  else
    ⟨cfg, mesh, false,
     ack_response cfg.nodeId pkt.sequenceNumber false ack_len⟩

theorem lss_build_ack_ne_none (t s q c len : Nat) (h : 202 ≤ len) :
    lss_build_ack t s q c len ≠ none := by
  unfold lss_build_ack lss_serialize_ack
  rw [if_neg (by omega)]
  exact Option.some_ne_none _

/-- **C4.** `SET_INTERVAL` with `dataLength ≥ 4` and an in-range
little-endian u32 `v` (`1000 ≤ v ≤ 3600000`): the stored telemetry
interval becomes `v`, `save()` is invoked, and the result is a serialised
ACK (status 0) echoing the command's sequence number.  Otherwise (short
payload or out-of-range `v`): configuration unchanged, not saved, and the
result is a serialised NACK (status 1) echoing the sequence number. -/
theorem set_interval_semantics (pkt : CommandPacket) (cfg : NodeConfig)
    (mesh : MeshRouter) (ack_len : Nat)
    (hct : pkt.commandType = CMD_SET_INTERVAL) (hlen : 202 ≤ ack_len) :
    ((4 ≤ pkt.dataLength ∧ 1000 ≤ rd32 pkt.data 0 ∧
        rd32 pkt.data 0 ≤ 3600000) →
      (handle_command pkt cfg mesh ack_len).cfg.telemetryIntervalMs =
          rd32 pkt.data 0 ∧
      (handle_command pkt cfg mesh ack_len).saved = true ∧
      (handle_command pkt cfg mesh ack_len).ack =
        lss_build_ack CMD_ACK cfg.nodeId pkt.sequenceNumber 0 ack_len ∧
      (handle_command pkt cfg mesh ack_len).ack ≠ none) ∧
    (¬(4 ≤ pkt.dataLength ∧ 1000 ≤ rd32 pkt.data 0 ∧
        rd32 pkt.data 0 ≤ 3600000) →
      (handle_command pkt cfg mesh ack_len).cfg = cfg ∧
      (handle_command pkt cfg mesh ack_len).saved = false ∧
      (handle_command pkt cfg mesh ack_len).ack =
        lss_build_ack CMD_NACK cfg.nodeId pkt.sequenceNumber 1 ack_len ∧
      (handle_command pkt cfg mesh ack_len).ack ≠ none) := by
  have hred : ∀ res : HandleResult, handle_command pkt cfg mesh ack_len = res →
      True := fun _ _ => trivial
  constructor
  · intro ⟨h4, hlo, hhi⟩
    unfold handle_command
    rw [hct, if_neg (by decide), if_neg (by decide), if_pos rfl,
        if_pos h4, if_pos ⟨hlo, hhi⟩]
    exact ⟨rfl, rfl, rfl, lss_build_ack_ne_none _ _ _ _ _ hlen⟩
  · intro hfail
    unfold handle_command
    rw [hct, if_neg (by decide), if_neg (by decide), if_pos rfl]
    by_cases h4 : 4 ≤ pkt.dataLength
    · rw [if_pos h4,
          if_neg (by intro hr; exact hfail ⟨h4, hr.1, hr.2⟩)]
      exact ⟨rfl, rfl, rfl, lss_build_ack_ne_none _ _ _ _ _ hlen⟩
    · rw [if_neg h4]
      exact ⟨rfl, rfl, rfl, lss_build_ack_ne_none _ _ _ _ _ hlen⟩

/-- Witness for C4 at the spec's scenario-3 command
(`SET_INTERVAL 15000`, target 7, sequence 42). -/
theorem set_interval_semantics_witness :
    cmdPkt0.commandType = CMD_SET_INTERVAL ∧ 202 ≤ 202 ∧
    (4 ≤ cmdPkt0.dataLength ∧ 1000 ≤ rd32 cmdPkt0.data 0 ∧
      rd32 cmdPkt0.data 0 ≤ 3600000) ∧
    ((handle_command cmdPkt0 defaultNodeConfig router5 202).cfg.telemetryIntervalMs =
        rd32 cmdPkt0.data 0 ∧
      (handle_command cmdPkt0 defaultNodeConfig router5 202).saved = true ∧
      (handle_command cmdPkt0 defaultNodeConfig router5 202).ack =
        lss_build_ack CMD_ACK defaultNodeConfig.nodeId
          cmdPkt0.sequenceNumber 0 202 ∧
      (handle_command cmdPkt0 defaultNodeConfig router5 202).ack ≠ none) :=
  ⟨rfl, by decide, by decide,
   (set_interval_semantics cmdPkt0 defaultNodeConfig router5 202 rfl
      (by decide)).1 (by decide)⟩

/-- **C10.** `SET_LOCATION` always produces an ACK (status 0, sequence
echoed), never a NACK, for every `dataLength` — including 0 — and always
calls `save()`.  The stored location is the C string copied from the
start of the data area, truncated to 31 bytes, with no dependence on
`dataLength`; the zone, when the `remaining`-guard passes, is likewise
copied from `data + strnlen(data, 32) + 1` limited only by the 15-byte
`strncpy` bound, so bytes beyond the first `dataLength` bytes of the data
area flow into the stored location and zone. -/
theorem set_location_always_acks (pkt : CommandPacket) (cfg : NodeConfig)
    (mesh : MeshRouter) (ack_len : Nat)
    (hct : pkt.commandType = CMD_SET_LOCATION) (hlen : 202 ≤ ack_len) :
    (handle_command pkt cfg mesh ack_len).ack =
      lss_build_ack CMD_ACK cfg.nodeId pkt.sequenceNumber 0 ack_len ∧
    (handle_command pkt cfg mesh ack_len).ack ≠ none ∧
    (handle_command pkt cfg mesh ack_len).saved = true ∧
    (handle_command pkt cfg mesh ack_len).cfg.location =
      cstr (LOCATION_MAXLEN - 1) pkt.data ∧
    (handle_command pkt cfg mesh ack_len).cfg.zone =
      (if 0 < pkt.dataLength - (strnlenN pkt.data LOCATION_MAXLEN + 1) ∧
          pkt.dataLength - (strnlenN pkt.data LOCATION_MAXLEN + 1) ≤
            ZONE_MAXLEN
       then cstr (ZONE_MAXLEN - 1)
         (pkt.data.drop (strnlenN pkt.data LOCATION_MAXLEN + 1))
       else cfg.zone) := by
  unfold handle_command
  rw [hct, if_neg (by decide), if_neg (by decide), if_neg (by decide),
      if_pos rfl]
  refine ⟨rfl, lss_build_ack_ne_none _ _ _ _ _ hlen, rfl, ?_, ?_⟩
  · show (if _ then _ else _ : NodeConfig).location = _
    split <;> rfl
  · show (if _ then _ else _ : NodeConfig).zone = _
    split <;> rfl

/-- A `SET_LOCATION` command with `dataLength = 0` whose data area
nevertheless contains `"Shed\0Outdoor\0"`. -/
def locPkt0 : CommandPacket :=
  { syncWord := 0xCDEF, commandType := 0x03, targetSensorId := 7,
    sequenceNumber := 9, dataLength := 0, pad := 0,
    data := [0x53, 0x68, 0x65, 0x64, 0, 0x4F, 0x75, 0x74, 0x64, 0x6F,
             0x6F, 0x72, 0] ++ List.replicate 179 0,
    checksum := 0 }

/-- Witness for C10: with `dataLength = 0` the command is still ACKed and
the location `"Shed"` is taken from the data area beyond the declared
payload. -/
theorem set_location_always_acks_witness :
    locPkt0.commandType = CMD_SET_LOCATION ∧ 202 ≤ 202 ∧
    locPkt0.dataLength = 0 ∧
    ((handle_command locPkt0 defaultNodeConfig router5 202).ack =
        lss_build_ack CMD_ACK defaultNodeConfig.nodeId
          locPkt0.sequenceNumber 0 202 ∧
      (handle_command locPkt0 defaultNodeConfig router5 202).ack ≠ none ∧
      (handle_command locPkt0 defaultNodeConfig router5 202).saved = true ∧
      (handle_command locPkt0 defaultNodeConfig router5 202).cfg.location =
        cstr (LOCATION_MAXLEN - 1) locPkt0.data ∧
      (handle_command locPkt0 defaultNodeConfig router5 202).cfg.zone =
        (if 0 < locPkt0.dataLength -
              (strnlenN locPkt0.data LOCATION_MAXLEN + 1) ∧
            locPkt0.dataLength -
              (strnlenN locPkt0.data LOCATION_MAXLEN + 1) ≤ ZONE_MAXLEN
         then cstr (ZONE_MAXLEN - 1)
           (locPkt0.data.drop (strnlenN locPkt0.data LOCATION_MAXLEN + 1))
         else defaultNodeConfig.zone)) ∧
    (handle_command locPkt0 defaultNodeConfig router5 202).cfg.location =
      [0x53, 0x68, 0x65, 0x64] :=
  ⟨rfl, by decide, rfl,
   set_location_always_acks locPkt0 defaultNodeConfig router5 202 rfl
     (by decide),
   by decide⟩

end LSS
